import Mathlib

/-!
Verification of the bike_pressure_monitor TPMS core: protocol decoders
(`TPMSUtil`, `TPMSUtil_Type2`), the sensor registry (`State`), and the
pairing workflow (`PairController`), shallowly embedded from the C++
sources.  Machine bytes are naturals accessed through an octet view
(`% 256`), 32/64-bit arithmetic is explicit modular arithmetic, and the
`float` expressions of the decoders are given exact rational semantics.
-/

namespace BikeTPMS

/-- Octet view of a raw buffer: the C++ code reads `unsigned char` values,
so every access yields a value in `[0, 255]`.  Out-of-range indices read 0
(they are only reached on buffers the validators reject). -/
def byteAt (b : List Nat) (i : Nat) : Nat := (b.getD i 0) % 256

/-- Embeds `TPMSUtil::isTPMSSensor` (TPMSUtil.cpp): an 18-byte buffer with
header `0x00 0x01`, magic `0xEA 0xCA` at offsets 3-4, and byte 2 at least
`0x80`. -/
def isTPMSSensor (b : List Nat) : Bool :=
  if b.length ≠ 18 then false
  else if byteAt b 0 ≠ 0x00 ∨ byteAt b 1 ≠ 0x01 then false
  else if byteAt b 3 ≠ 0xea ∨ byteAt b 4 ≠ 0xca then false
  else if byteAt b 2 < 0x80 then false
  else true

/-- Embeds `TPMSUtil::getLongValue`: four consecutive octets combined
little-endian into a `long`, i.e. reinterpreted as a signed 32-bit value
(the top octet is shifted into the sign bit). -/
def getLongValue (b : List Nat) (i : Nat) : Int :=
  let u : Nat := byteAt b i + 256 * byteAt b (i+1) +
      65536 * byteAt b (i+2) + 16777216 * byteAt b (i+3)
  if u < 2^31 then (u : Int) else (u : Int) - 2^32

/-- The exact rational value of the kPa→PSI factor literal
`0.14503773773020923f` in `TPMSUtil::parsePressure`. -/
def kpaToPsi : ℚ := 14503773773020923 / 100000000000000000

/-- Decoded TypeA sensor reading (the fields `TPMSUtil`'s constructor
fills in via `parseID` / `parsePressure` / `parseTemperature` /
`parseOther`).  Float fields carry exact rational semantics. -/
structure TPMSReading where
  identifier : List Nat
  sensorNumber : Int
  pressurePSI : ℚ
  pressureBar : ℚ
  temperatureC : ℚ
  batteryLevel : Nat
  alert : Bool
  deriving Repr, DecidableEq

/-- Embeds the body of `TPMSUtil`'s constructor: `parseID` (identifier from
bytes 5-7, sensor number = byte 2 − 0x80), `parsePressure` (kPa = LE32 at
offset 8 over 1000; PSI = kPa × 0.14503773773020923; bar = kPa / 100),
`parseTemperature` (LE32 at offset 12 over 100), and `parseOther`
(battery = byte 16, alert ⇔ byte 17 = 1). -/
def decodeTypeA (b : List Nat) : TPMSReading :=
  let kPA : ℚ := (getLongValue b 8 : ℚ) / 1000
  { identifier := [byteAt b 5, byteAt b 6, byteAt b 7]
    sensorNumber := (byteAt b 2 : Int) - 0x80
    pressurePSI := kPA * kpaToPsi
    pressureBar := kPA / 100
    temperatureC := (getLongValue b 12 : ℚ) / 100
    batteryLevel := byteAt b 16
    alert := byteAt b 17 == 1 }

/-- Embeds `TPMSUtil::parse`: validate, then construct; `none` stands for
the `nullptr` failure indicator. -/
def parseTypeA (b : List Nat) : Option TPMSReading :=
  if isTPMSSensor b then some (decodeTypeA b) else none

/-- The decoded TypeA pressure sample in kPa: the little-endian 32-bit
value at offset 8, divided by 1000 (`parsePressure`'s `kPA`). -/
def pressureKPA (b : List Nat) : ℚ := (getLongValue b 8 : ℚ) / 1000

/-- The 18-byte example advertisement from the TPMSUtil.cpp comment:
`00 01 81 EA CA 20 04 10 23 06 00 00 1F 0B 00 00 09 00`. -/
def exampleA : List Nat :=
  [0x00, 0x01, 0x81, 0xea, 0xca, 0x20, 0x04, 0x10, 0x23, 0x06, 0x00, 0x00,
   0x1f, 0x0b, 0x00, 0x00, 0x09, 0x00]

/-! ### TypeB decoder (`TPMSUtil_Type2`, src/unnamed/part_015) -/

/-- Embeds `TPMSUtil_Type2::isTPMSSensor_Type2`: payload content is only
checked for its exact 11-byte length. -/
def isTPMSSensor_Type2 (b : List Nat) : Bool := b.length == 11

/-- A C-style cast of a float value to `uint8_t` under exact rational
semantics: the value is truncated toward zero; if the truncated value is
not representable in 0–255 the conversion is undefined behaviour, modelled
as `none`. -/
def castToUInt8 (q : ℚ) : Option Nat :=
  let t : Int := if 0 ≤ q then ⌊q⌋ else ⌈q⌉
  if 0 ≤ t ∧ t ≤ 255 then some t.toNat else none

/-- Decoded TypeB sensor reading (the fields `TPMSUtil_Type2`'s
constructor fills from the 11-byte payload; the MAC-derived wheel number
and sensor id are not modelled here, no claim touches them).  Float fields
carry exact rational semantics; the battery percentage is `none` when the
code's `(uint8_t)` cast of the percentage float is undefined behaviour. -/
structure Type2Reading where
  alarm : Bool
  batteryVoltage : ℚ
  batteryPercentage : Option Nat
  temperatureC : ℚ
  pressurePSI : ℚ
  deriving Repr, DecidableEq

/-- Embeds `TPMSUtil_Type2::parseBattery`: voltage = byte 1 × 0.1;
percentage = (voltage − 2.0) × 100, stored as 100 when above 100 and
otherwise cast to `uint8_t`. -/
def parseBattery_Type2 (b : List Nat) : ℚ × Option Nat :=
  let voltage : ℚ := (byteAt b 1 : ℚ) * (1 / 10)
  let percentage : ℚ := (voltage - 2) * 100
  (voltage, if percentage > 100 then some 100 else castToUInt8 percentage)

/-- The 16-bit raw pressure word of `TPMSUtil_Type2::parsePressure`:
byte 3 is the high octet, byte 4 the low octet. -/
def rawPressure_Type2 (b : List Nat) : Nat := byteAt b 4 + byteAt b 3 * 256

/-- Embeds the body of `TPMSUtil_Type2`'s constructor: `parseStatus`
(alarm ⇔ bit 1 of byte 0), `parseBattery`, `parseTemperature` (byte 2 as
Celsius, unscaled), and `parsePressure`
(PSI = 0.10223139 × raw − 14.61232950). -/
def decodeType2 (b : List Nat) : Type2Reading :=
  let battery := parseBattery_Type2 b
  { alarm := (byteAt b 0) % 4 / 2 == 1
    batteryVoltage := battery.1
    batteryPercentage := battery.2
    temperatureC := (byteAt b 2 : ℚ)
    pressurePSI := (10223139 / 100000000 : ℚ) * rawPressure_Type2 b -
      1461232950 / 100000000 }

/-- Embeds `TPMSUtil_Type2::parse`: validate the length, then construct;
`none` stands for the `nullptr` failure indicator. -/
def parseType2 (b : List Nat) : Option Type2Reading :=
  if isTPMSSensor_Type2 b then some (decodeType2 b) else none

/-- The 11-byte TypeB example payload from the TPMSUtil_Type2.cpp header
comment, `01 1C 17 01 B3` padded to 11 bytes (normal, 2.8 V, 23 °C,
raw pressure 435 ≈ 30 PSI). -/
def exampleB : List Nat :=
  [0x01, 0x1c, 0x17, 0x01, 0xb3, 0x00, 0x00, 0x00, 0x00, 0x00, 0x00]

/-- The TypeB example payload with byte 1 (the raw battery octet) set to
0, i.e. a reported battery voltage of 0.0 V. -/
def exampleB0 : List Nat :=
  [0x01, 0x00, 0x17, 0x01, 0xb3, 0x00, 0x00, 0x00, 0x00, 0x00, 0x00]

/-! ### Sensor registry (`State::data`, TPMSScanCallbacks.cpp, State.cpp)

The registry is the `unordered_map` from MAC address to the latest sensor
object.  It is modelled as an association list ordered most-recent-first:
a fresh insertion goes to the front, matching the code's reliance (in
`PairController::checkForNewSensor`) on the newest sensor being the first
element reached by iteration.  The stored sensor object is abstract
(`α`). -/

variable {α : Type}

/-- Association-list registry keyed by MAC address strings. -/
abbrev Registry (α : Type) : Type := List (String × α)

/-- Embeds `state.getData().contains(address)`. -/
def containsAddr (m : Registry α) (a : String) : Bool :=
  m.any (fun p => p.1 == a)

/-- Embeds the registry update of `TPMSScanCallbacks::onDiscovered`:
`state.getData()[address] = sensor` — replace the entry in place when the
address is present, insert a fresh entry otherwise. -/
def upsert (m : Registry α) (a : String) (v : α) : Registry α :=
  if containsAddr m a then m.map (fun p => if p.1 == a then (a, v) else p)
  else (a, v) :: m

/-- Embeds `state.getData()[address]` as a read: the stored sensor for an
address, if any. -/
def lookupAddr (m : Registry α) (a : String) : Option α :=
  (m.find? (fun p => p.1 == a)).map Prod.snd

/-- The number of registry entries stored under one address. -/
def countAddr (m : Registry α) (a : String) : Nat :=
  (m.filter (fun p => p.1 == a)).length

/-- Registry invariant: at most one entry per address. -/
def atMostOnePerAddr (m : Registry α) : Prop :=
  ∀ a : String, countAddr m a ≤ 1

/-- The staleness threshold of `State::cleanupOldSensors`:
`60000 * 7` ms, i.e. 7 minutes. -/
def evictThresholdMS : Nat := 60000 * 7

/-- Wrapping `uint64_t` subtraction, as in
`currentTime - sensor->getTimestamp()`. -/
def usub64 (x y : Nat) : Nat := (x % 2^64 + 2^64 - y % 2^64) % 2^64

/-- Embeds the sweep loop of `State::cleanupOldSensors`: entries whose
(64-bit) age exceeds the threshold are erased and counted, the others are
kept unchanged and in order.  `ts` reads an entry's `getTimestamp()`; the
returned number is the `removedCount` the code reports. -/
def cleanupOldSensors (ts : α → Nat) (now : Nat) :
    Registry α → Registry α × Nat
  | [] => ([], 0)
  | e :: rest =>
    let r := cleanupOldSensors ts now rest
    if usub64 now (ts e.2) > evictThresholdMS then (r.1, r.2 + 1)
    else (e :: r.1, r.2)

/-! ### Pairing workflow (`PairController`, PairController.cpp) -/

/-- The states of `PairController::PairingState`. -/
inductive PairingState : Type
  | scanningFront
  | waitingFrontConfirm
  | scanningRear
  | waitingRearConfirm
  | timeoutFront
  | timeoutRear
  | complete
  deriving Repr, DecidableEq

/-- The `PairController` member state: current pairing state, the two
selected addresses, the scan-start timestamp (`uint32_t`, 0 = disarmed),
the registry-size snapshot, and the completion flag. -/
structure PairCtrl : Type where
  state : PairingState
  selectedFrontAddress : String
  selectedRearAddress : String
  scanStartTime : Nat
  lastSensorCount : Nat
  pairingComplete : Bool
  deriving Repr, DecidableEq

/-- Embeds `PairController::init`: scanning-front stage, cleared
addresses, completion flag down, and the scan timer left at the sentinel
0 until the user presses the button. -/
def pairInit : PairCtrl :=
  { state := .scanningFront
    selectedFrontAddress := ""
    selectedRearAddress := ""
    scanStartTime := 0
    lastSensorCount := 0
    pairingComplete := false }

/-- The fixed `PairController::SCAN_TIMEOUT_MS` of 60 seconds. -/
def scanTimeoutMS : Nat := 60000

/-- Wrapping `uint32_t` subtraction, as in
`currentTime - m_scanStartTime`. -/
def usub32 (x y : Nat) : Nat := (x % 2^32 + 2^32 - y % 2^32) % 2^32

/-- The address the sensor-detection code picks up: the first entry the
registry iteration yields (the newest, in this model), or the empty
string on an empty registry. -/
def newestAddr (reg : Registry α) : String :=
  ((reg.head?).map Prod.fst).getD ""

/-- Embeds `PairController::checkForNewSensor`: in a scanning state, if
the registry grew beyond the snapshot, take the first iterated address as
candidate — front: always advance to `WAITING_FRONT_CONFIRM`; rear:
advance to `WAITING_REAR_CONFIRM` unless the candidate equals the
confirmed front address (then keep scanning) — and finally refresh the
snapshot. -/
def checkForNewSensor (reg : Registry α) (c : PairCtrl) : PairCtrl :=
  if c.state ≠ .scanningFront ∧ c.state ≠ .scanningRear then c
  else
    let currentCount := reg.length
    let c' :=
      if currentCount > c.lastSensorCount ∧ currentCount > 0 then
        let newestAddress := newestAddr reg
        if c.state = .scanningFront then
          { c with selectedFrontAddress := newestAddress,
                   state := .waitingFrontConfirm }
        else
          if newestAddress ≠ c.selectedFrontAddress then
            { c with selectedRearAddress := newestAddress,
                     state := .waitingRearConfirm }
          else c
      else c
    { c' with lastSensorCount := currentCount }

/-- Embeds `PairController::update`: nothing in `COMPLETE`; otherwise
check for new sensors, then — only in a scanning state with an armed
timer (`m_scanStartTime > 0`) — compare the elapsed time against the
60-second timeout and, once reached, move to the matching timeout state
and reset the timer to the sentinel 0. -/
def update (reg : Registry α) (currentTime : Nat) (c : PairCtrl) : PairCtrl :=
  if c.state = .complete then c
  else
    let c1 := checkForNewSensor reg c
    if (c1.state = .scanningFront ∨ c1.state = .scanningRear) ∧
        c1.scanStartTime > 0 then
      if usub32 currentTime c1.scanStartTime < scanTimeoutMS then c1
      else
        { c1 with
          state := if c1.state = .scanningFront then .timeoutFront
                   else .timeoutRear
          scanStartTime := 0 }
    else c1

/-- Embeds `PairController::handleButtonPress` (the state logic; UI and
persistence effects elided): scanning/timeout states (re)start the
matching scan with a fresh `uint32_t` start time; a front confirmation
starts the rear scan (`startRearScan`, which also resets the snapshot);
a rear confirmation completes pairing unless an address is missing. -/
def handleButtonPress (now : Nat) (c : PairCtrl) : PairCtrl :=
  if c.state = .scanningFront ∨ c.state = .timeoutFront then
    { c with state := .scanningFront, scanStartTime := now % 2^32 }
  else if c.state = .scanningRear ∨ c.state = .timeoutRear then
    { c with state := .scanningRear, scanStartTime := now % 2^32 }
  else if c.state = .waitingFrontConfirm then
    { c with state := .scanningRear, scanStartTime := now % 2^32,
             lastSensorCount := 0 }
  else if c.state = .waitingRearConfirm then
    if c.selectedFrontAddress = "" ∨ c.selectedRearAddress = "" then c
    else { c with state := .complete, pairingComplete := true }
  else c

/-- One control-loop tick history: the registry contents and clock value
seen by each successive `update` call. -/
def runTicks (ticks : List (Registry α × Nat)) (c : PairCtrl) : PairCtrl :=
  ticks.foldl (fun s p => update p.1 p.2 s) c

/-- A two-entry demonstration registry whose stored values are their own
timestamps: one sensor last observed at 520000 ms, one at 640000 ms. -/
def demoReg : Registry Nat := [("old", 520000), ("fresh", 640000)]

end BikeTPMS

namespace BikeTPMS

/-- Characterisation of the TypeA validator as a conjunction of the four
checks in `TPMSUtil::isTPMSSensor`. -/
theorem isTPMSSensor_iff (b : List Nat) :
    isTPMSSensor b = true ↔
      b.length = 18 ∧ byteAt b 0 = 0x00 ∧ byteAt b 1 = 0x01 ∧
      byteAt b 3 = 0xea ∧ byteAt b 4 = 0xca ∧ 0x80 ≤ byteAt b 2 := by
  unfold isTPMSSensor
  split_ifs with h1 h2 h3 h4 <;> simp_all <;> omega

/-- C1: the TypeA validator/decoder fails (validate returns false and
parse returns the failure indicator) whenever the length is not 18, the
header bytes differ from `0x00 0x01`, the magic bytes differ from
`0xEA 0xCA`, or byte 2 is below `0x80`; in particular every buffer of
length ≠ 18 is rejected. -/
theorem typeA_rejects_malformed (b : List Nat)
    (h : b.length ≠ 18 ∨ byteAt b 0 ≠ 0x00 ∨ byteAt b 1 ≠ 0x01 ∨
         byteAt b 3 ≠ 0xea ∨ byteAt b 4 ≠ 0xca ∨ byteAt b 2 < 0x80) :
    isTPMSSensor b = false ∧ parseTypeA b = none := by
  have hv : isTPMSSensor b = false := by
    unfold isTPMSSensor
    rcases h with h | h | h | h | h | h
    · simp [h]
    all_goals by_cases h18 : b.length = 18 <;> simp [h18] <;> omega
  exact ⟨hv, by simp [parseTypeA, hv]⟩

/-- Witness for C1 at the concrete 17-byte truncation of the example
advertisement: the validator and the parser both reject it. -/
theorem typeA_rejects_malformed_witness :
    isTPMSSensor [0x00, 0x01, 0x81, 0xea, 0xca, 0x20, 0x04, 0x10, 0x23,
                  0x06, 0x00, 0x00, 0x1f, 0x0b, 0x00, 0x00, 0x09] = false ∧
    parseTypeA [0x00, 0x01, 0x81, 0xea, 0xca, 0x20, 0x04, 0x10, 0x23,
                0x06, 0x00, 0x00, 0x1f, 0x0b, 0x00, 0x00, 0x09] = none :=
  typeA_rejects_malformed _ (Or.inl (by decide))

/-- C2: for every buffer the TypeA validator accepts, the decoder produces
a reading whose bar value is the decoded kPa sample over 100, whose PSI
value relates to the bar value by the one conversion factor (both derive
from the single sampled kPa quantity), and whose PSI value agrees with
`kPa × 0.145037738` — the spec's 9-decimal rendering of the code's factor
`0.14503773773020923` — to within `kPa × 3·10⁻¹⁰`. -/
theorem typeA_pressure_units_consistent (b : List Nat)
    (h : isTPMSSensor b = true) :
    parseTypeA b = some (decodeTypeA b) ∧
    (decodeTypeA b).pressureBar = pressureKPA b / 100 ∧
    (decodeTypeA b).pressurePSI = (decodeTypeA b).pressureBar * 100 * kpaToPsi ∧
    |(decodeTypeA b).pressurePSI - pressureKPA b * (145037738 / 1000000000)| ≤
      |pressureKPA b| * (3 / 10000000000) := by
  refine ⟨by simp [parseTypeA, h], rfl, by simp [decodeTypeA, pressureKPA], ?_⟩
  have hps : (decodeTypeA b).pressurePSI = pressureKPA b * kpaToPsi := rfl
  rw [hps]
  have : pressureKPA b * kpaToPsi - pressureKPA b * (145037738 / 1000000000) =
      pressureKPA b * (kpaToPsi - 145037738 / 1000000000) := by ring
  rw [this, abs_mul]
  refine mul_le_mul_of_nonneg_left ?_ (abs_nonneg _)
  rw [show kpaToPsi - 145037738 / 1000000000 =
        -(26979077 / 100000000000000000) by norm_num [kpaToPsi]]
  rw [abs_neg, abs_of_nonneg (by norm_num)]
  norm_num

/-- Witness for C2 at the example advertisement (kPa sample 1.571). -/
theorem typeA_pressure_units_consistent_witness :
    isTPMSSensor exampleA = true ∧
    (parseTypeA exampleA = some (decodeTypeA exampleA) ∧
     (decodeTypeA exampleA).pressureBar = pressureKPA exampleA / 100 ∧
     (decodeTypeA exampleA).pressurePSI =
       (decodeTypeA exampleA).pressureBar * 100 * kpaToPsi ∧
     |(decodeTypeA exampleA).pressurePSI -
        pressureKPA exampleA * (145037738 / 1000000000)| ≤
       |pressureKPA exampleA| * (3 / 10000000000)) :=
  ⟨by decide, typeA_pressure_units_consistent exampleA (by decide)⟩

/-- C9 counterexample: the buffer with byte 2 = `0xFF` passes the TypeA
validator, yet its decoded role hint is `0xFF − 0x80 = 127`, outside the
claimed range 0–15. -/
theorem typeA_role_hint_range_counterexample :
    isTPMSSensor
        [0x00, 0x01, 0xff, 0xea, 0xca, 0x20, 0x04, 0x10, 0x23, 0x06, 0x00,
         0x00, 0x1f, 0x0b, 0x00, 0x00, 0x09, 0x00] = true ∧
    (decodeTypeA
        [0x00, 0x01, 0xff, 0xea, 0xca, 0x20, 0x04, 0x10, 0x23, 0x06, 0x00,
         0x00, 0x1f, 0x0b, 0x00, 0x00, 0x09, 0x00]).sensorNumber = 127 ∧
    ¬(decodeTypeA
        [0x00, 0x01, 0xff, 0xea, 0xca, 0x20, 0x04, 0x10, 0x23, 0x06, 0x00,
         0x00, 0x1f, 0x0b, 0x00, 0x00, 0x09, 0x00]).sensorNumber ≤ 15 := by
  refine ⟨by decide, rfl, by decide⟩

/-- C9 amended: for every buffer the TypeA validator accepts, the decoded
role hint (byte 2 − 0x80) lies in the range 0–127: the validator bounds
byte 2 below by `0x80` and the octet type bounds it above by `0xFF`. -/
theorem typeA_role_hint_range (b : List Nat) (h : isTPMSSensor b = true) :
    0 ≤ (decodeTypeA b).sensorNumber ∧ (decodeTypeA b).sensorNumber ≤ 127 := by
  have h2 : 0x80 ≤ byteAt b 2 := ((isTPMSSensor_iff b).mp h).2.2.2.2.2
  have hlt : byteAt b 2 < 256 := Nat.mod_lt _ (by norm_num)
  have hsn : (decodeTypeA b).sensorNumber = (byteAt b 2 : Int) - 0x80 := rfl
  omega

/-- Witness for C9 amended at the example advertisement (role hint 1). -/
theorem typeA_role_hint_range_witness :
    0 ≤ (decodeTypeA exampleA).sensorNumber ∧
    (decodeTypeA exampleA).sensorNumber ≤ 127 :=
  typeA_role_hint_range exampleA (by decide)

/-- C3: every 11-byte TypeB payload decodes, and its pressure is the
affine calibration `0.10223139 × raw − 14.61232950` of the 16-bit word
with byte 3 as high and byte 4 as low octet; at the example payload
(MSB `0x01`, LSB `0xB3`, raw 435) the decoded PSI is within 0.2 of 29.9. -/
theorem typeB_pressure_formula :
    (∀ b : List Nat, b.length = 11 →
      parseType2 b = some (decodeType2 b) ∧
      (decodeType2 b).pressurePSI =
        (10223139 / 100000000 : ℚ) * (byteAt b 4 + byteAt b 3 * 256) -
          1461232950 / 100000000) ∧
    rawPressure_Type2 exampleB = 435 ∧
    |(decodeType2 exampleB).pressurePSI - 299 / 10| ≤ 2 / 10 := by
  refine ⟨fun b hb => ⟨by simp [parseType2, isTPMSSensor_Type2, hb], ?_⟩, by decide, ?_⟩
  · show (10223139 / 100000000 : ℚ) * rawPressure_Type2 b - 1461232950 / 100000000 = _
    rw [rawPressure_Type2]
    push_cast
    ring
  · have hps : (decodeType2 exampleB).pressurePSI =
        (10223139 / 100000000 : ℚ) * 435 - 1461232950 / 100000000 := by
      show (10223139 / 100000000 : ℚ) * rawPressure_Type2 exampleB -
          1461232950 / 100000000 = _
      norm_num [rawPressure_Type2, exampleB, byteAt]
    rw [hps]
    rw [show (10223139 / 100000000 : ℚ) * 435 - 1461232950 / 100000000 - 299 / 10 =
          -(83349700 / 2000000000) by norm_num]
    rw [abs_neg, abs_of_nonneg (by norm_num)]
    norm_num

/-- Witness for C3 at the example payload: the length hypothesis of the
universal part is discharged at `exampleB`. -/
theorem typeB_pressure_formula_witness :
    parseType2 exampleB = some (decodeType2 exampleB) ∧
    |(decodeType2 exampleB).pressurePSI - 299 / 10| ≤ 2 / 10 :=
  ⟨(typeB_pressure_formula.1 exampleB rfl).1, typeB_pressure_formula.2.2⟩

/-- The `uint8_t` cast of a value at most −1 is undefined behaviour. -/
theorem castToUInt8_eq_none (q : ℚ) (hq : q ≤ -1) : castToUInt8 q = none := by
  have h0 : ¬ (0 : ℚ) ≤ q := by linarith
  have hc : ⌈q⌉ ≤ -1 := Int.ceil_le.mpr (by exact_mod_cast hq)
  simp only [castToUInt8, h0, if_false]
  rw [if_neg]
  rintro ⟨h1, -⟩
  omega

/-- The `uint8_t` cast of a representable natural value is that value. -/
theorem castToUInt8_natCast (n : Nat) (hn : n ≤ 255) :
    castToUInt8 (n : ℚ) = some n := by
  have h0 : (0 : ℚ) ≤ (n : ℚ) := Nat.cast_nonneg n
  simp only [castToUInt8, h0, if_true, Int.floor_natCast]
  rw [if_pos ⟨Int.natCast_nonneg n, by exact_mod_cast hn⟩]
  simp

/-- C4 counterexample: at byte 1 = 0 the claimed stored percentage
`min((voltage − 2.0) × 100, 100)` is −200, which is not on the 0–100
scale, and the code's `(uint8_t)` cast of the negative percentage float is
undefined behaviour (modelled `none`), so no stored natural equals the
claimed formula there. -/
theorem typeB_battery_clamp_counterexample :
    min (((decodeType2 exampleB0).batteryVoltage - 2) * 100) 100 = -200 ∧
    ¬ (0 : ℚ) ≤ min (((decodeType2 exampleB0).batteryVoltage - 2) * 100) 100 ∧
    (decodeType2 exampleB0).batteryPercentage = none ∧
    ¬ ∃ n : Nat, (decodeType2 exampleB0).batteryPercentage = some n ∧
        (n : ℚ) = min (((decodeType2 exampleB0).batteryVoltage - 2) * 100) 100 := by
  have hv : (decodeType2 exampleB0).batteryVoltage = 0 := by
    show ((byteAt exampleB0 1 : ℚ)) * (1 / 10) = 0
    norm_num [byteAt, exampleB0]
  have hmin : min (((decodeType2 exampleB0).batteryVoltage - 2) * 100) 100 =
      (-200 : ℚ) := by rw [hv]; norm_num
  have hpc : (decodeType2 exampleB0).batteryPercentage = none := by
    show (if (((byteAt exampleB0 1 : ℚ)) * (1 / 10) - 2) * 100 > 100 then some 100
          else castToUInt8 ((((byteAt exampleB0 1 : ℚ)) * (1 / 10) - 2) * 100)) = none
    have hb1 : ((byteAt exampleB0 1 : ℚ)) = 0 := by norm_num [byteAt, exampleB0]
    rw [hb1, if_neg (by norm_num)]
    exact castToUInt8_eq_none _ (by norm_num)
  refine ⟨hmin, by rw [hmin]; norm_num, hpc, ?_⟩
  rintro ⟨n, hn, -⟩
  rw [hpc] at hn
  exact Option.noConfusion hn

/-- C4 amended: for every TypeB payload whose battery octet is at least
20 (voltage ≥ 2.0 V, the documented operating range), the decoded voltage
is byte 1 / 10 and the stored percentage is `min(10 × byte1 − 200, 100)`,
a value on the 0–100 scale.  Below 20 the percentage float is negative
and the code's `uint8_t` cast of it is undefined behaviour. -/
theorem typeB_battery_clamp (b : List Nat) (h20 : 20 ≤ byteAt b 1) :
    (decodeType2 b).batteryVoltage = (byteAt b 1 : ℚ) / 10 ∧
    (decodeType2 b).batteryPercentage =
      some (min (10 * byteAt b 1 - 200) 100) ∧
    min (10 * byteAt b 1 - 200) 100 ≤ 100 := by
  have hr : 200 ≤ 10 * byteAt b 1 := by omega
  have hcast : (((byteAt b 1 : ℚ)) * (1 / 10) - 2) * 100 =
      ((10 * byteAt b 1 - 200 : ℕ) : ℚ) := by
    rw [Nat.cast_sub hr]
    push_cast
    ring
  refine ⟨by show ((byteAt b 1 : ℚ)) * (1 / 10) = _; ring, ?_, min_le_right _ _⟩
  show (if (((byteAt b 1 : ℚ)) * (1 / 10) - 2) * 100 > 100 then some 100
        else castToUInt8 ((((byteAt b 1 : ℚ)) * (1 / 10) - 2) * 100)) = _
  rw [hcast]
  by_cases hm : (100 : ℚ) < ((10 * byteAt b 1 - 200 : ℕ) : ℚ)
  · rw [if_pos hm]
    have h100 : 100 ≤ 10 * byteAt b 1 - 200 := by exact_mod_cast hm.le
    rw [min_eq_right h100]
  · rw [if_neg hm]
    have h100 : 10 * byteAt b 1 - 200 ≤ 100 := by
      have := not_lt.mp hm
      exact_mod_cast this
    rw [castToUInt8_natCast _ (by omega), min_eq_left h100]

/-- Witness for C4 amended at the example payload (byte 1 = 28, i.e.
2.8 V and a stored 80 %). -/
theorem typeB_battery_clamp_witness :
    20 ≤ byteAt exampleB 1 ∧
    ((decodeType2 exampleB).batteryVoltage = (byteAt exampleB 1 : ℚ) / 10 ∧
     (decodeType2 exampleB).batteryPercentage =
       some (min (10 * byteAt exampleB 1 - 200) 100) ∧
     min (10 * byteAt exampleB 1 - 200) 100 ≤ 100) :=
  ⟨by decide, typeB_battery_clamp exampleB (by decide)⟩

/-- Per-address entry count of a cons cell. -/
theorem countAddr_cons (p : String × α) (m : Registry α) (a : String) :
    countAddr (p :: m) a = (if p.1 = a then 1 else 0) + countAddr m a := by
  by_cases hp : p.1 = a <;> simp [countAddr, List.filter_cons, hp] <;> omega

/-- In-place replacement keeps the count of entries under the replaced
address. -/
theorem countAddr_replace_self (m : Registry α) (a : String) (v : α) :
    countAddr (m.map (fun p => if p.1 == a then (a, v) else p)) a =
      countAddr m a := by
  induction m with
  | nil => rfl
  | cons p rest ih =>
    by_cases hp : p.1 = a
    · simp [countAddr_cons, hp] at ih ⊢
      omega
    · simp [countAddr_cons, hp] at ih ⊢
      omega

/-- In-place replacement keeps the count of entries under every other
address. -/
theorem countAddr_replace_other (m : Registry α) (a x : String) (v : α)
    (hx : x ≠ a) :
    countAddr (m.map (fun p => if p.1 == a then (a, v) else p)) x =
      countAddr m x := by
  induction m with
  | nil => rfl
  | cons p rest ih =>
    by_cases hp : p.1 = a
    · simp [countAddr_cons, hp, Ne.symm hx] at ih ⊢
      omega
    · simp [countAddr_cons, hp] at ih ⊢
      omega

/-- Presence of an address is the same as a positive entry count. -/
theorem containsAddr_iff_one_le (m : Registry α) (a : String) :
    containsAddr m a = true ↔ 1 ≤ countAddr m a := by
  induction m with
  | nil => simp [containsAddr, countAddr]
  | cons p rest ih =>
    by_cases hp : p.1 = a
    · simp [containsAddr, countAddr_cons, hp]
    · simp only [containsAddr, List.any_cons] at ih ⊢
      simp [countAddr_cons, hp, ih]

/-- Looking up the replaced address after an in-place replacement yields
the new value. -/
theorem lookupAddr_replace (m : Registry α) (a : String) (v : α)
    (h : containsAddr m a = true) :
    lookupAddr (m.map (fun p => if p.1 == a then (a, v) else p)) a =
      some v := by
  induction m with
  | nil => simp [containsAddr] at h
  | cons p rest ih =>
    by_cases hp : p.1 = a
    · simp [lookupAddr, hp]
    · have h' : containsAddr rest a = true := by
        simpa [containsAddr, hp] using h
      simpa [lookupAddr, hp] using ih h'

/-- Looking up the written address after an upsert yields the written
value. -/
theorem upsert_lookup (m : Registry α) (a : String) (v : α) :
    lookupAddr (upsert m a v) a = some v := by
  by_cases h : containsAddr m a
  · simpa [upsert, h] using lookupAddr_replace m a v h
  · simp [upsert, h, lookupAddr]

/-- After an upsert the written address holds exactly one entry, provided
it held at most one before. -/
theorem upsert_count_self (m : Registry α) (a : String) (v : α)
    (hm : countAddr m a ≤ 1) : countAddr (upsert m a v) a = 1 := by
  by_cases h : containsAddr m a
  · have h1 := (containsAddr_iff_one_le m a).mp h
    simp only [upsert, h, if_true]
    rw [countAddr_replace_self]
    omega
  · have h0 : countAddr m a = 0 := by
      rcases Nat.eq_zero_or_pos (countAddr m a) with h' | h'
      · exact h'
      · exact absurd ((containsAddr_iff_one_le m a).mpr h') (by simpa using h)
    simp [upsert, h, countAddr_cons, h0]

/-- An upsert leaves the entry count of every other address unchanged. -/
theorem upsert_count_other (m : Registry α) (a x : String) (v : α)
    (hx : x ≠ a) : countAddr (upsert m a v) x = countAddr m x := by
  by_cases h : containsAddr m a
  · simpa [upsert, h] using countAddr_replace_other m a x v hx
  · simp [upsert, h, countAddr_cons, Ne.symm hx]

/-- C5: an upsert preserves the at-most-one-entry-per-address invariant,
and two successive upserts to one address leave exactly one entry for it,
holding the second reading — insertion replaces, never merges or
duplicates. -/
theorem registry_upsert_semantics :
    (∀ (m : Registry α) (a : String) (v : α),
        atMostOnePerAddr m → atMostOnePerAddr (upsert m a v)) ∧
    (∀ (m : Registry α) (a : String) (r1 r2 : α), atMostOnePerAddr m →
        countAddr (upsert (upsert m a r1) a r2) a = 1 ∧
        lookupAddr (upsert (upsert m a r1) a r2) a = some r2) := by
  constructor
  · intro m a v hm x
    by_cases hx : x = a
    · subst hx
      exact (upsert_count_self m x v (hm x)).le
    · rw [upsert_count_other m a x v hx]
      exact hm x
  · intro m a r1 r2 hm
    have h1 : countAddr (upsert m a r1) a = 1 := upsert_count_self m a r1 (hm a)
    exact ⟨upsert_count_self _ a r2 h1.le, upsert_lookup _ a r2⟩

/-- Witness for C5: two upserts of readings 1 then 2 under one address
into the empty registry leave one entry holding 2. -/
theorem registry_upsert_semantics_witness :
    countAddr (upsert (upsert ([] : Registry Nat) "aa" 1) "aa" 2) "aa" = 1 ∧
    lookupAddr (upsert (upsert ([] : Registry Nat) "aa" 1) "aa" 2) "aa" =
      some 2 :=
  registry_upsert_semantics.2 [] "aa" 1 2 (fun _ => Nat.zero_le 1)

/-- 64-bit wrapping subtraction agrees with plain subtraction when no
wrap occurs. -/
theorem usub64_of_le (x y : Nat) (hy : y ≤ x) (hx : x < 2^64) :
    usub64 x y = x - y := by
  unfold usub64
  rw [Nat.mod_eq_of_lt hx, Nat.mod_eq_of_lt (lt_of_le_of_lt hy hx)]
  omega

/-- C6: on a registry whose timestamps do not postdate `now`, the
eviction sweep removes exactly the entries whose `observed_at` predates
`now` minus the 7-minute threshold, keeps every other entry unchanged and
in order, and its removed count is the number of removed entries. -/
theorem registry_evict_stale (ts : α → Nat) (now : Nat) (m : Registry α)
    (hnow : now < 2^64) (hts : ∀ e ∈ m, ts e.2 ≤ now) :
    (cleanupOldSensors ts now m).1 =
      m.filter
        (fun e => !decide ((ts e.2 : Int) < (now : Int) - evictThresholdMS)) ∧
    (cleanupOldSensors ts now m).2 =
      m.countP
        (fun e => decide ((ts e.2 : Int) < (now : Int) - evictThresholdMS)) := by
  induction m with
  | nil => exact ⟨rfl, rfl⟩
  | cons e rest ih =>
    have hts_e : ts e.2 ≤ now := hts e (List.mem_cons_self e rest)
    obtain ⟨ih1, ih2⟩ := ih (fun x hx => hts x (List.mem_cons_of_mem e hx))
    have hsub : usub64 now (ts e.2) = now - ts e.2 :=
      usub64_of_le now _ hts_e hnow
    by_cases hc : evictThresholdMS < usub64 now (ts e.2)
    · have hint : (ts e.2 : Int) < (now : Int) - evictThresholdMS := by
        rw [hsub] at hc
        simp only [evictThresholdMS] at hc ⊢
        omega
      refine ⟨?_, ?_⟩ <;>
        simp [cleanupOldSensors, hc, List.filter_cons, List.countP_cons,
          hint, ih1, ih2]
    · have hint : ¬((ts e.2 : Int) < (now : Int) - evictThresholdMS) := by
        rw [hsub] at hc
        simp only [evictThresholdMS] at hc ⊢
        omega
      refine ⟨?_, ?_⟩ <;>
        simp [cleanupOldSensors, hc, List.filter_cons, List.countP_cons,
          hint, ih1, ih2]

/-- Witness for C6: with `now = 1000000` ms, the entry observed 8 minutes
ago (timestamp 520000) is removed and the entry observed 6 minutes ago
(timestamp 640000) is retained unchanged; the removed count is 1. -/
theorem registry_evict_stale_witness :
    ((cleanupOldSensors (fun t : Nat => t) 1000000 demoReg).1 =
      demoReg.filter
        (fun e => !decide ((e.2 : Int) < (1000000 : Int) - evictThresholdMS)) ∧
     (cleanupOldSensors (fun t : Nat => t) 1000000 demoReg).2 =
      demoReg.countP
        (fun e => decide ((e.2 : Int) < (1000000 : Int) - evictThresholdMS))) ∧
    (cleanupOldSensors (fun t : Nat => t) 1000000 demoReg).1 =
      [("fresh", 640000)] ∧
    (cleanupOldSensors (fun t : Nat => t) 1000000 demoReg).2 = 1 :=
  ⟨registry_evict_stale (fun t => t) 1000000 demoReg (by norm_num)
      (by decide),
   by decide, by decide⟩

/-- 32-bit wrapping subtraction agrees with plain subtraction when no
wrap occurs. -/
theorem usub32_of_le (x y : Nat) (hy : y ≤ x) (hx : x < 2^32) :
    usub32 x y = x - y := by
  unfold usub32
  rw [Nat.mod_eq_of_lt hx, Nat.mod_eq_of_lt (lt_of_le_of_lt hy hx)]
  omega

/-- Sensor detection in the front-scanning stage with registry growth:
advance to confirmation with the first iterated address. -/
theorem checkForNewSensor_front (reg : Registry α) (c : PairCtrl)
    (hs : c.state = .scanningFront) (hg : c.lastSensorCount < reg.length) :
    checkForNewSensor reg c =
      { c with state := .waitingFrontConfirm,
               selectedFrontAddress := newestAddr reg,
               lastSensorCount := reg.length } := by
  have h0 : 0 < reg.length := by omega
  simp [checkForNewSensor, hs, hg, h0]

/-- Sensor detection in the rear-scanning stage with registry growth and
a candidate distinct from the front address: advance to confirmation. -/
theorem checkForNewSensor_rear_accept (reg : Registry α) (c : PairCtrl)
    (hs : c.state = .scanningRear) (hg : c.lastSensorCount < reg.length)
    (hne : newestAddr reg ≠ c.selectedFrontAddress) :
    checkForNewSensor reg c =
      { c with state := .waitingRearConfirm,
               selectedRearAddress := newestAddr reg,
               lastSensorCount := reg.length } := by
  have h0 : 0 < reg.length := by omega
  simp [checkForNewSensor, hs, hg, h0, hne]

/-- Sensor detection in the rear-scanning stage with registry growth but
a candidate equal to the front address: stay scanning, only refresh the
snapshot. -/
theorem checkForNewSensor_rear_reject (reg : Registry α) (c : PairCtrl)
    (hs : c.state = .scanningRear) (hg : c.lastSensorCount < reg.length)
    (heq : newestAddr reg = c.selectedFrontAddress) :
    checkForNewSensor reg c = { c with lastSensorCount := reg.length } := by
  have h0 : 0 < reg.length := by omega
  simp [checkForNewSensor, hs, hg, h0, heq]

/-- Sensor detection outside the two scanning stages does nothing. -/
theorem checkForNewSensor_not_scanning (reg : Registry α) (c : PairCtrl)
    (h1 : c.state ≠ .scanningFront) (h2 : c.state ≠ .scanningRear) :
    checkForNewSensor reg c = c := by
  simp [checkForNewSensor, h1, h2]

/-- Sensor detection without registry growth only refreshes the
snapshot. -/
theorem checkForNewSensor_no_growth (reg : Registry α) (c : PairCtrl)
    (hng : reg.length ≤ c.lastSensorCount) :
    checkForNewSensor reg c = c ∨
    checkForNewSensor reg c = { c with lastSensorCount := reg.length } := by
  by_cases hsc : c.state ≠ .scanningFront ∧ c.state ≠ .scanningRear
  · exact Or.inl (by simp [checkForNewSensor, hsc])
  · refine Or.inr ?_
    have hng' : ¬(c.lastSensorCount < reg.length ∧ 0 < reg.length) := by omega
    simp only [checkForNewSensor, if_neg hsc, if_neg hng']

/-- Sensor detection never touches the scan timer. -/
theorem checkForNewSensor_scanStartTime (reg : Registry α) (c : PairCtrl) :
    (checkForNewSensor reg c).scanStartTime = c.scanStartTime := by
  unfold checkForNewSensor
  split_ifs <;> simp [apply_ite PairCtrl.scanStartTime]

/-- When the (post-detection) scan timer holds the sentinel 0, a tick is
exactly the sensor-detection step: the timeout machinery never fires. -/
theorem update_timer_unarmed (reg : Registry α) (t : Nat) (c : PairCtrl)
    (hc : c.state ≠ .complete) (h0 : c.scanStartTime = 0) :
    update reg t c = checkForNewSensor reg c := by
  have h0' : ¬ 0 < (checkForNewSensor reg c).scanStartTime := by
    rw [checkForNewSensor_scanStartTime, h0]
    omega
  simp only [update, if_neg hc]
  rw [if_neg]
  rintro ⟨-, hpos⟩
  exact h0' hpos

/-- A fresh address is inserted at the front of the registry and becomes
the first iterated (newest) entry, growing the registry by one. -/
theorem upsert_fresh (reg : Registry α) (a : String) (v : α)
    (h : containsAddr reg a = false) :
    upsert reg a v = (a, v) :: reg := by
  simp [upsert, h]

/-- C7: on a pairing tick in a scanning state with registry growth:
in the front stage the workflow moves to `WAITING_FRONT_CONFIRM` with the
newest address selected — in particular, after inserting a fresh address
the selected front address is exactly the inserted one; in the rear stage
a candidate equal to the confirmed front address is rejected (the state
stays `SCANNING_REAR` and the rear selection is untouched), while a
distinct candidate moves to `WAITING_REAR_CONFIRM`. -/
theorem pairing_candidate_selection :
    (∀ (reg : Registry α) (c : PairCtrl),
        c.state = .scanningFront → c.lastSensorCount < reg.length →
        (checkForNewSensor reg c).state = .waitingFrontConfirm ∧
        (checkForNewSensor reg c).selectedFrontAddress = newestAddr reg) ∧
    (∀ (reg : Registry α) (c : PairCtrl) (a : String) (v : α),
        c.state = .scanningFront → containsAddr reg a = false →
        c.lastSensorCount = reg.length →
        (checkForNewSensor (upsert reg a v) c).state = .waitingFrontConfirm ∧
        (checkForNewSensor (upsert reg a v) c).selectedFrontAddress = a) ∧
    (∀ (reg : Registry α) (c : PairCtrl),
        c.state = .scanningRear → c.lastSensorCount < reg.length →
        newestAddr reg = c.selectedFrontAddress →
        (checkForNewSensor reg c).state = .scanningRear ∧
        (checkForNewSensor reg c).selectedRearAddress =
          c.selectedRearAddress) ∧
    (∀ (reg : Registry α) (c : PairCtrl),
        c.state = .scanningRear → c.lastSensorCount < reg.length →
        newestAddr reg ≠ c.selectedFrontAddress →
        (checkForNewSensor reg c).state = .waitingRearConfirm ∧
        (checkForNewSensor reg c).selectedRearAddress = newestAddr reg) := by
  refine ⟨fun reg c hs hg => ?_, fun reg c a v hs hf hc => ?_,
          fun reg c hs hg he => ?_, fun reg c hs hg hne => ?_⟩
  · rw [checkForNewSensor_front reg c hs hg]
    exact ⟨rfl, rfl⟩
  · have hup : upsert reg a v = (a, v) :: reg := upsert_fresh reg a v hf
    have hlen : c.lastSensorCount < (upsert reg a v).length := by
      rw [hup, List.length_cons]
      omega
    rw [checkForNewSensor_front _ c hs hlen]
    refine ⟨rfl, ?_⟩
    show newestAddr (upsert reg a v) = a
    rw [hup]
    rfl
  · rw [checkForNewSensor_rear_reject reg c hs hg he]
    exact ⟨hs, rfl⟩
  · rw [checkForNewSensor_rear_accept reg c hs hg hne]
    exact ⟨rfl, rfl⟩

/-- Witness for C7: inserting fresh address `"fr"` into an empty registry
during the front scan selects `"fr"`; offering `"fr"` again during the
rear scan is rejected and leaves the workflow scanning. -/
theorem pairing_candidate_selection_witness :
    ((checkForNewSensor (upsert ([] : Registry Nat) "fr" 7) pairInit).state =
        PairingState.waitingFrontConfirm ∧
     (checkForNewSensor (upsert ([] : Registry Nat) "fr" 7)
        pairInit).selectedFrontAddress = "fr") ∧
    ((checkForNewSensor ([("fr", 7)] : Registry Nat)
        { pairInit with state := .scanningRear,
                        selectedFrontAddress := "fr" }).state =
        PairingState.scanningRear ∧
     (checkForNewSensor ([("fr", 7)] : Registry Nat)
        { pairInit with state := .scanningRear,
                        selectedFrontAddress := "fr" }).selectedRearAddress =
       ({ pairInit with state := .scanningRear,
                        selectedFrontAddress := "fr" } :
          PairCtrl).selectedRearAddress) :=
  ⟨pairing_candidate_selection.2.1 [] pairInit "fr" 7 rfl (by decide) rfl,
   pairing_candidate_selection.2.2.1 [("fr", 7)] _ rfl (by decide)
     (by decide)⟩

/-- A tick in a scanning state with an armed timer whose elapsed time has
reached the 60-second limit moves to the matching timeout state and
disarms the timer. -/
theorem update_timeout_fires (reg : Registry α) (t : Nat) (c : PairCtrl)
    (hs : (checkForNewSensor reg c).state = .scanningFront)
    (hpos : 0 < (checkForNewSensor reg c).scanStartTime)
    (htime : ¬ usub32 t (checkForNewSensor reg c).scanStartTime <
        scanTimeoutMS)
    (hnotc : c.state ≠ .complete) :
    update reg t c =
      { checkForNewSensor reg c with
        state := .timeoutFront, scanStartTime := 0 } := by
  simp only [update, if_neg hnotc]
  rw [if_pos ⟨Or.inl hs, hpos⟩, if_neg htime, if_pos hs]

/-- The front-scanning stage with an armed timer, no registry growth, and
the timeout reached transitions to `TIMEOUT_FRONT` with the timer reset
to the sentinel. -/
theorem update_times_out (reg : Registry α) (c : PairCtrl) (t : Nat)
    (hs : c.state = .scanningFront) (hpos : 0 < c.scanStartTime)
    (hng : reg.length ≤ c.lastSensorCount)
    (htime : scanTimeoutMS ≤ usub32 t c.scanStartTime) :
    (update reg t c).state = .timeoutFront ∧
    (update reg t c).scanStartTime = 0 := by
  have hsst := checkForNewSensor_scanStartTime reg c
  have hfire := update_timeout_fires reg t c
    (by rcases checkForNewSensor_no_growth reg c hng with h | h <;> rw [h] <;>
        exact hs)
    (by rw [hsst]; exact hpos)
    (by rw [hsst]; omega)
    (by simp [hs])
  rw [hfire]
  exact ⟨rfl, rfl⟩

/-- A tick in the `TIMEOUT_FRONT` state changes nothing: sensor detection
skips non-scanning states and the timeout machinery requires a scanning
state. -/
theorem update_stable_timeoutFront (reg : Registry α) (t : Nat)
    (c : PairCtrl) (hs : c.state = .timeoutFront) : update reg t c = c := by
  have hnotc : c.state ≠ .complete := by simp [hs]
  have hchk : checkForNewSensor reg c = c :=
    checkForNewSensor_not_scanning reg c (by simp [hs]) (by simp [hs])
  simp only [update, if_neg hnotc, hchk]
  rw [if_neg]
  rintro ⟨h | h, -⟩ <;> rw [hs] at h <;> exact PairingState.noConfusion h

/-- No tick sequence leaves the `TIMEOUT_FRONT` state. -/
theorem runTicks_stable_timeoutFront (ticks : List (Registry α × Nat))
    (c : PairCtrl) (hs : c.state = .timeoutFront) : runTicks ticks c = c := by
  induction ticks with
  | nil => rfl
  | cons p rest ih =>
    show runTicks rest (update p.1 p.2 c) = c
    rw [update_stable_timeoutFront p.1 p.2 c hs, ih]

/-- C8 counterexample: entering `SCANNING_FRONT` at `t = 0` stores the
sentinel start time 0, so the timer stays disarmed and the tick at
`t = 60001` ms leaves the workflow in `SCANNING_FRONT`, not
`TIMEOUT_FRONT`. -/
theorem pairing_timeout_at_zero_counterexample :
    (handleButtonPress 0 pairInit).state = PairingState.scanningFront ∧
    (handleButtonPress 0 pairInit).scanStartTime = 0 ∧
    (update ([] : Registry Nat) 60001 (handleButtonPress 0 pairInit)).state =
      PairingState.scanningFront ∧
    ¬ (update ([] : Registry Nat) 60001
        (handleButtonPress 0 pairInit)).state = PairingState.timeoutFront := by
  decide

/-- C8 amended: a front scan whose timer was armed at a positive start
time and which sees no registry growth is in `TIMEOUT_FRONT` once the
elapsed time reaches 60 s — in particular, entering `SCANNING_FRONT` by a
button press at any `t0 > 0` and ticking at `t0 + 60001` ms with an empty
registry lands in `TIMEOUT_FRONT`; the `TIMEOUT_FRONT` state is preserved
by every tick sequence, and only an explicit button press re-enters
`SCANNING_FRONT`, with a fresh start time. -/
theorem pairing_timeout_behavior :
    (∀ (reg : Registry α) (c : PairCtrl) (t : Nat),
        c.state = .scanningFront → 0 < c.scanStartTime →
        reg.length ≤ c.lastSensorCount →
        scanTimeoutMS ≤ usub32 t c.scanStartTime →
        (update reg t c).state = .timeoutFront ∧
        (update reg t c).scanStartTime = 0) ∧
    (∀ t0 : Nat, 0 < t0 → t0 + 60001 < 2^32 →
        (update ([] : Registry Nat) (t0 + 60001)
            (handleButtonPress t0 pairInit)).state = .timeoutFront) ∧
    (∀ (c : PairCtrl) (reg : Registry α) (t : Nat),
        c.state = .timeoutFront → update reg t c = c) ∧
    (∀ (c : PairCtrl) (ticks : List (Registry α × Nat)),
        c.state = .timeoutFront → runTicks ticks c = c) ∧
    (∀ (c : PairCtrl) (now : Nat), c.state = .timeoutFront →
        (handleButtonPress now c).state = .scanningFront ∧
        (handleButtonPress now c).scanStartTime = now % 2^32) := by
  refine ⟨fun reg c t hs hpos hng htime =>
            update_times_out reg c t hs hpos hng htime,
          fun t0 h0 hlt => ?_,
          fun c reg t hs => update_stable_timeoutFront reg t c hs,
          fun c ticks hs => runTicks_stable_timeoutFront ticks c hs,
          fun c now hs => by simp [handleButtonPress, hs]⟩
  have ht0 : t0 < 2^32 := by omega
  have hbp : handleButtonPress t0 pairInit =
      { pairInit with state := .scanningFront,
                      scanStartTime := t0 % 2^32 } := by
    simp [handleButtonPress, pairInit]
  rw [hbp]
  have hmod : t0 % 2^32 = t0 := Nat.mod_eq_of_lt ht0
  refine (update_times_out [] _ (t0 + 60001) rfl ?_ ?_ ?_).1
  · show 0 < t0 % 2^32
    omega
  · exact Nat.zero_le _
  · show scanTimeoutMS ≤ usub32 (t0 + 60001) (t0 % 2^32)
    rw [hmod, usub32_of_le (t0 + 60001) t0 (by omega) hlt]
    simp only [scanTimeoutMS]
    omega

/-- Witness for C8: at `t0 = 1` the tick at 60002 ms lands in
`TIMEOUT_FRONT`; from a concrete `TIMEOUT_FRONT` control state a tick at
999999 ms changes nothing and a button press at 5 ms resumes scanning
with start time 5. -/
theorem pairing_timeout_behavior_witness :
    (update ([] : Registry Nat) (1 + 60001)
        (handleButtonPress 1 pairInit)).state = PairingState.timeoutFront ∧
    update ([] : Registry Nat) 999999
        { pairInit with state := .timeoutFront } =
      { pairInit with state := .timeoutFront } ∧
    (handleButtonPress 5
        { pairInit with state := .timeoutFront }).state =
      PairingState.scanningFront ∧
    (handleButtonPress 5
        { pairInit with state := .timeoutFront }).scanStartTime = 5 % 2^32 :=
  ⟨(pairing_timeout_behavior (α := Nat)).2.1 1 (by norm_num) (by norm_num),
   (pairing_timeout_behavior (α := Nat)).2.2.1 _ [] 999999 rfl,
   ((pairing_timeout_behavior (α := Nat)).2.2.2.2 _ 5 rfl).1,
   ((pairing_timeout_behavior (α := Nat)).2.2.2.2 _ 5 rfl).2⟩

/-- A tick keeps the timer at the sentinel 0 and the pre-button states
(front scanning or front confirmation) within themselves. -/
theorem update_timer_off_inv (reg : Registry α) (t : Nat) (c : PairCtrl)
    (h0 : c.scanStartTime = 0)
    (hs : c.state = .scanningFront ∨ c.state = .waitingFrontConfirm) :
    (update reg t c).scanStartTime = 0 ∧
    ((update reg t c).state = .scanningFront ∨
     (update reg t c).state = .waitingFrontConfirm) := by
  have hnotc : c.state ≠ .complete := by rcases hs with h | h <;> simp [h]
  rw [update_timer_unarmed reg t c hnotc h0]
  refine ⟨by rw [checkForNewSensor_scanStartTime]; exact h0, ?_⟩
  rcases hs with h | h
  · by_cases hg : c.lastSensorCount < reg.length
    · rw [checkForNewSensor_front reg c h hg]
      exact Or.inr rfl
    · rcases checkForNewSensor_no_growth reg c (by omega) with he | he <;>
        rw [he] <;> exact Or.inl h
  · rw [checkForNewSensor_not_scanning reg c (by simp [h]) (by simp [h])]
    exact Or.inr h

/-- Iterated form of `update_timer_off_inv` over a whole tick history. -/
theorem runTicks_timer_off (ticks : List (Registry α × Nat)) (c : PairCtrl)
    (h0 : c.scanStartTime = 0)
    (hs : c.state = .scanningFront ∨ c.state = .waitingFrontConfirm) :
    (runTicks ticks c).scanStartTime = 0 ∧
    ((runTicks ticks c).state = .scanningFront ∨
     (runTicks ticks c).state = .waitingFrontConfirm) := by
  induction ticks generalizing c with
  | nil => exact ⟨h0, hs⟩
  | cons p rest ih =>
    have h := update_timer_off_inv p.1 p.2 c h0 hs
    exact ih (update p.1 p.2 c) h.1 h.2

/-- C10: from initialization, with no button press, the scan timer stays
at the sentinel 0 and no tick sequence — whatever the clock values and
registry contents — ever reaches a timeout state; a button press at a
positive clock value arms the countdown with a nonzero start time. -/
theorem pairing_countdown_disarmed_before_button :
    (∀ (ticks : List (Registry α × Nat)),
        (runTicks ticks pairInit).scanStartTime = 0 ∧
        (runTicks ticks pairInit).state ≠ .timeoutFront ∧
        (runTicks ticks pairInit).state ≠ .timeoutRear) ∧
    (∀ now : Nat, 0 < now → now < 2^32 →
        (handleButtonPress now pairInit).state = .scanningFront ∧
        0 < (handleButtonPress now pairInit).scanStartTime) := by
  constructor
  · intro ticks
    obtain ⟨h0, hs⟩ := runTicks_timer_off ticks pairInit rfl (Or.inl rfl)
    refine ⟨h0, ?_, ?_⟩ <;> rcases hs with h | h <;> simp [h]
  · intro now h0 hlt
    have hbp : handleButtonPress now pairInit =
        { pairInit with state := .scanningFront,
                        scanStartTime := now % 2^32 } := by
      simp [handleButtonPress, pairInit]
    rw [hbp]
    refine ⟨rfl, ?_⟩
    show 0 < now % 2^32
    rw [Nat.mod_eq_of_lt hlt]
    exact h0

/-- Witness for C10: a concrete three-tick history (spanning far beyond
60 s, with and without registry contents) keeps the freshly initialized
workflow out of the timeout states with the timer disarmed, and a button
press at 7 ms arms the countdown. -/
theorem pairing_countdown_disarmed_before_button_witness :
    ((runTicks ([([], 100), ([("fr", 7)], 70000), ([], 4000000000)] :
        List (Registry Nat × Nat)) pairInit).scanStartTime = 0 ∧
     (runTicks ([([], 100), ([("fr", 7)], 70000), ([], 4000000000)] :
        List (Registry Nat × Nat)) pairInit).state ≠
       PairingState.timeoutFront ∧
     (runTicks ([([], 100), ([("fr", 7)], 70000), ([], 4000000000)] :
        List (Registry Nat × Nat)) pairInit).state ≠
       PairingState.timeoutRear) ∧
    ((handleButtonPress 7 pairInit).state = PairingState.scanningFront ∧
     0 < (handleButtonPress 7 pairInit).scanStartTime) :=
  ⟨(pairing_countdown_disarmed_before_button (α := Nat)).1 _,
   (pairing_countdown_disarmed_before_button (α := Nat)).2 7 (by norm_num)
     (by norm_num)⟩

end BikeTPMS
